import Mathlib

/-!
Verification of the FEDPOFFA CBT backend identity & access subsystem:
a shallow embedding of `app/core/security.py`, `app/core/dependencies.py`,
`app/services/auth_service.py`, `app/services/semester_service.py`,
`app/services/program_service.py` and `app/services/course_service.py`,
with theorems settling the specification claims about them.

Time is modelled as an integer number of seconds (Unix timestamp);
identifiers (uuid4 values) are modelled as naturals drawn from a fresh
counter.  Exceptions raised by the Python services are modelled with
`Except`: an `error` result corresponds to an `HTTPException` (or domain
exception) being raised before any state is committed, so the database
state is returned unchanged alongside it where state matters.
-/

deriving instance DecidableEq for Except

namespace Fedpoffa

/-! ### Configuration (`app/core/config.py`) -/

/-- `settings.SECRET_KEY` default. -/
def SECRET_KEY : String := "your-secret-key-change-in-production"

/-- `settings.ACCESS_TOKEN_EXPIRE_MINUTES` default. -/
def ACCESS_TOKEN_EXPIRE_MINUTES : Int := 30

/-- `settings.REFRESH_TOKEN_EXPIRE_DAYS` default. -/
def REFRESH_TOKEN_EXPIRE_DAYS : Int := 7

/-- `FedpoffaConstants.ROLE_STUDENT`. -/
def ROLE_STUDENT : String := "student"

/-- `FedpoffaConstants.ROLE_LECTURER`. -/
def ROLE_LECTURER : String := "lecturer"

/-- `FedpoffaConstants.ROLE_ADMIN`. -/
def ROLE_ADMIN : String := "admin"

/-- `FedpoffaConstants.ROLE_IT_ADMIN`. -/
def ROLE_IT_ADMIN : String := "it_admin"

/-! ### Token engine (`app/core/security.py`)

A JWT payload is the caller-supplied claim dict plus the four reserved
claims the module always writes (`exp`, `iat`, `jti`, `type`).  The
caller data is kept as an association list of string claims; `exp` is
optional so that tokens lacking an expiry claim are representable. -/

/-- Decoded JWT payload: caller claims plus the reserved claims written
by `create_access_token` / `create_refresh_token`. -/
structure TokenPayload where
  data : List (String × String)
  exp : Option Int
  iat : Int
  jti : Nat
  type : String
  deriving Repr, DecidableEq

/-- A signed token: the payload together with the key it was signed
with (`jwt.encode(to_encode, key, algorithm)`); signature verification
succeeds exactly when the verifying key matches the signing key. -/
structure SignedToken where
  payload : TokenPayload
  key : String
  deriving Repr, DecidableEq

/-- `jwt.encode(to_encode, key, algorithm=...)`. -/
def jwtEncode (payload : TokenPayload) (key : String) : SignedToken :=
  ⟨payload, key⟩

/-- Modelled from the spec: `jwt.decode` of the external JWT library is
not part of this repository.  Following the spec's Token Engine
contract — "checks signature validity, checks `expires-at > now`" —
decoding succeeds iff the verifying key matches the signing key and the
expiry claim, when present, lies strictly in the future; any failure
yields no payload (the `JWTError` branch). -/
def jwtDecode (tok : SignedToken) (key : String) (now : Int) : Option TokenPayload :=
  if tok.key = key then
    match tok.payload.exp with
    | some e => if now < e then some tok.payload else none
    | none => some tok.payload
  else
    none

/-- `create_access_token(data, expires_delta)` at time `now`, with `jti`
the fresh random token id: sets `exp = now + expires_delta` (default
`ACCESS_TOKEN_EXPIRE_MINUTES` minutes), `iat = now`, `type = "access"`,
and signs with `SECRET_KEY`. -/
def create_access_token (data : List (String × String)) (now : Int)
    (expires_delta : Option Int) (jti : Nat) : SignedToken :=
  let expire := match expires_delta with
    | some d => now + d
    | none => now + ACCESS_TOKEN_EXPIRE_MINUTES * 60
  jwtEncode ⟨data, some expire, now, jti, "access"⟩ SECRET_KEY

/-- `create_refresh_token(data, expires_delta)` at time `now`: like
`create_access_token` but `type = "refresh"` and the default ttl is
`REFRESH_TOKEN_EXPIRE_DAYS` days. -/
def create_refresh_token (data : List (String × String)) (now : Int)
    (expires_delta : Option Int) (jti : Nat) : SignedToken :=
  let expire := match expires_delta with
    | some d => now + d
    | none => now + REFRESH_TOKEN_EXPIRE_DAYS * 86400
  jwtEncode ⟨data, some expire, now, jti, "refresh"⟩ SECRET_KEY

/-- `verify_token(token)` at time `now`: decode with `SECRET_KEY`,
returning the payload, or `none` on any `JWTError`. -/
def verify_token (tok : SignedToken) (now : Int) : Option TokenPayload :=
  jwtDecode tok SECRET_KEY now

/-- `verify_access_token(token)`: the payload if `verify_token`
succeeds and `payload["type"] == "access"`, else `none`. -/
def verify_access_token (tok : SignedToken) (now : Int) : Option TokenPayload :=
  match verify_token tok now with
  | some payload => if payload.type = "access" then some payload else none
  | none => none

/-- `verify_refresh_token(token)`: the payload if `verify_token`
succeeds and `payload["type"] == "refresh"`, else `none`. -/
def verify_refresh_token (tok : SignedToken) (now : Int) : Option TokenPayload :=
  match verify_token tok now with
  | some payload => if payload.type = "refresh" then some payload else none
  | none => none

/-- `get_token_expiration(token)` at time `now`: the `exp` claim of a
verifiable token, else `none`. -/
def get_token_expiration (tok : SignedToken) (now : Int) : Option Int :=
  match verify_token tok now with
  | some payload => payload.exp
  | none => none

/-- `is_token_expired(token)` at time `now`: `now > exp` when
`get_token_expiration` yields an expiry, else `True`. -/
def is_token_expired (tok : SignedToken) (now : Int) : Bool :=
  match get_token_expiration tok now with
  | some e => now > e
  | none => true

/-! ### Password strength policy (`validate_password_strength`) -/

/-- The fixed allowed symbol set of the regex `[@$!%*?&]`. -/
def SPECIAL_CHARS : List Char := ['@', '$', '!', '%', '*', '?', '&']

/-- `validate_password_strength(password)`: minimum length 8, then the
four early-return regex searches `[a-z]`, `[A-Z]`, `\d`, `[@$!%*?&]`. -/
def validate_password_strength (password : String) : Bool :=
  if password.length < 8 then false
  else if !password.data.any Char.isLower then false
  else if !password.data.any Char.isUpper then false
  else if !password.data.any Char.isDigit then false
  else if !password.data.any (fun c => SPECIAL_CHARS.contains c) then false
  else true

/-! ### Role-based authorization (`app/core/dependencies.py`) -/

/-- An `HTTPException(status_code, detail)` raised by a service or
dependency. -/
structure HTTPError where
  status_code : Nat
  detail : String
  deriving Repr, DecidableEq

/-- `require_role(required_role)`'s inner `role_checker`, applied to
the authenticated user's role: 403 unless the role matches or is one
of `ROLE_ADMIN`, `ROLE_IT_ADMIN`. -/
def require_role (required_role : String) (role : String) : Except HTTPError String :=
  if role ≠ required_role ∧ ¬ role ∈ [ROLE_ADMIN, ROLE_IT_ADMIN] then
    .error ⟨403, "Access denied. Required role: " ++ required_role⟩
  else
    .ok role

/-- `require_roles(required_roles)`'s inner `roles_checker`: 403 unless
the role is in the list or is one of `ROLE_ADMIN`, `ROLE_IT_ADMIN`. -/
def require_roles (required_roles : List String) (role : String) : Except HTTPError String :=
  if ¬ role ∈ required_roles ∧ ¬ role ∈ [ROLE_ADMIN, ROLE_IT_ADMIN] then
    .error ⟨403, "Access denied. Required roles: " ++ String.intercalate ", " required_roles⟩
  else
    .ok role

/-! ### Rate gate (`rate_limit_dependency`)

The factory's closed-over `request_counts` dict is the state, keyed by
client address; each admission call runs at a timestamp `now` (the
`current_time` the code reads for the request). -/

/-- Outcome of one admission call: return normally or raise 429. -/
inductive RateResult where
  | allowed
  | rateLimited
  deriving Repr, DecidableEq

/-- The `request_counts` dict: per-client lists of request timestamps. -/
structure RateState where
  request_counts : List (String × List Int)
  deriving Repr, DecidableEq

/-- `request_counts.get(client_ip, [])`. -/
def RateState.get (s : RateState) (client_ip : String) : List Int :=
  match s.request_counts.lookup client_ip with
  | some ts => ts
  | none => []

/-- `request_counts[client_ip] = ts` (insert or overwrite the key). -/
def RateState.set (s : RateState) (client_ip : String) (ts : List Int) : RateState :=
  if s.request_counts.lookup client_ip = none then
    ⟨s.request_counts ++ [(client_ip, ts)]⟩
  else
    ⟨s.request_counts.map fun kv => if kv.1 = client_ip then (client_ip, ts) else kv⟩

/-- One admission call of the `rate_limiter` closure produced by
`rate_limit_dependency(max_requests, window_seconds)`: drop timestamps
`≤ now - window_seconds` (the code keeps `req_time > window_start`),
store the cleaned list, deny with 429 if its length is already
`≥ max_requests`, else append `now` and allow. -/
def rate_limiter (max_requests : Nat) (window_seconds : Int)
    (s : RateState) (client_ip : String) (now : Int) : RateResult × RateState :=
  let window_start := now - window_seconds
  let kept := (s.get client_ip).filter (fun req_time => window_start < req_time)
  if max_requests ≤ kept.length then
    (.rateLimited, s.set client_ip kept)
  else
    (.allowed, s.set client_ip (kept ++ [now]))

/-- Run a sequence of admission calls from one client at the given
timestamps, collecting the outcomes. -/
def runRateCalls (max_requests : Nat) (window_seconds : Int)
    (s : RateState) (client_ip : String) : List Int → List RateResult
  | [] => []
  | now :: rest =>
    (rate_limiter max_requests window_seconds s client_ip now).1 ::
      runRateCalls max_requests window_seconds
        (rate_limiter max_requests window_seconds s client_ip now).2 client_ip rest

/-! ### Identity service login (`AuthService.authenticate_user`) -/

/-- The columns of `User` that `authenticate_user` reads. -/
structure AuthUser where
  id : Nat
  email : String
  matric_number : String
  password_hash : String
  is_active : Bool
  role : String
  department_id : Option Nat
  deriving Repr, DecidableEq

/-- `AuthService._get_user_by_identifier`: by email when the identifier
contains `@`, by matric number otherwise (`.first()` on the filter). -/
def get_user_by_identifier (users : List AuthUser) (identifier : String) : Option AuthUser :=
  if identifier.data.contains '@' then
    users.find? (fun u => u.email = identifier)
  else
    users.find? (fun u => u.matric_number = identifier)

/-- `AuthService.authenticate_user(login_data)`, up to the point the
token pair is minted: the password hasher is passed in as the external
`verify_password` capability.  On success it returns the `token_data`
claim dict embedded in the issued tokens; each failure raises the
code's `HTTPException`. -/
def authenticate_user (verify_password : String → String → Bool)
    (users : List AuthUser) (identifier password : String) :
    Except HTTPError (List (String × String)) :=
  match get_user_by_identifier users identifier with
  | none => .error ⟨401, "Invalid credentials"⟩
  | some user =>
    if !user.is_active then
      .error ⟨401, "Account is inactive"⟩
    else if !verify_password password user.password_hash then
      .error ⟨401, "Invalid credentials"⟩
    else
      .ok [("sub", toString user.id),
           ("email", user.email),
           ("matric_number", user.matric_number),
           ("role", user.role),
           ("department_id", match user.department_id with
                             | some d => toString d
                             | none => "None")]

/-! ### Semester service (`app/services/semester_service.py`)

Only the columns the current-semester logic touches are modelled; row
ids are naturals drawn from a fresh counter standing in for `uuid4`. -/

/-- A `Semester` row (the fields `create_semester`/`update_semester`
manipulate for the current-flag logic). -/
structure Semester where
  id : Nat
  name : String
  is_current : Bool
  is_active : Bool
  deriving Repr, DecidableEq

/-- The semesters table plus the fresh-id counter. -/
structure SemDB where
  semesters : List Semester
  nextId : Nat
  deriving Repr, DecidableEq

/-- `SemesterCreate` payload (the fields relevant here). -/
structure SemesterCreate where
  name : String
  is_current : Bool
  deriving Repr, DecidableEq

/-- `SemesterUpdate` payload: optional fields, `None` meaning "not
provided" (the fields relevant here). -/
structure SemesterUpdate where
  name : Option String
  is_current : Option Bool
  is_active : Option Bool
  deriving Repr, DecidableEq

/-- `SemesterService.create_semester`: reject a duplicate name with
400; if the new semester is current, first unset `is_current` on every
row (`query(Semester).update({is_current: False})`), then insert the
new row (`is_active` takes its column default `True`). -/
def create_semester (db : SemDB) (data : SemesterCreate) : Except HTTPError SemDB :=
  if (db.semesters.find? (fun s => s.name = data.name)).isSome then
    .error ⟨400, "Semester with this name already exists"⟩
  else
    .ok ⟨(if data.is_current then
            db.semesters.map (fun s => { s with is_current := false })
          else
            db.semesters) ++ [⟨db.nextId, data.name, data.is_current, true⟩],
         db.nextId + 1⟩

/-- Apply `update_semester`'s per-field assignments to the target row
(in source order: `name`, then `is_current`, then `is_active`). -/
def applySemesterUpdate (u : SemesterUpdate) (s : Semester) : Semester :=
  let s := match u.name with
    | some n => { s with name := n }
    | none => s
  let s := match u.is_current with
    | some b => { s with is_current := b }
    | none => s
  match u.is_active with
  | some b => { s with is_active := b }
  | none => s

/-- `SemesterService.update_semester`: 404 when the id is absent; when
`is_current=True` is being set, first unset `is_current` on every row,
then assign the provided fields on the target row. -/
def update_semester (db : SemDB) (semester_id : Nat) (u : SemesterUpdate) :
    Except HTTPError SemDB :=
  if (db.semesters.find? (fun s => s.id = semester_id)).isNone then
    .error ⟨404, "Semester not found"⟩
  else
    .ok ⟨(if u.is_current = some true then
            db.semesters.map (fun s => { s with is_current := false })
          else
            db.semesters).map
           (fun s => if s.id = semester_id then applySemesterUpdate u s else s),
         db.nextId⟩

/-- A semester operation: one service call. -/
inductive SemOp where
  | create (data : SemesterCreate)
  | update (semester_id : Nat) (u : SemesterUpdate)
  deriving Repr, DecidableEq

/-- Run one operation; a raised `HTTPException` leaves the database
unchanged (the service raises before committing anything). -/
def runSemOp (db : SemDB) : SemOp → SemDB
  | .create data =>
    match create_semester db data with
    | .ok db' => db'
    | .error _ => db
  | .update sid u =>
    match update_semester db sid u with
    | .ok db' => db'
    | .error _ => db

/-- Run a sequence of semester operations from a starting state. -/
def runSemOps (db : SemDB) : List SemOp → SemDB
  | [] => db
  | op :: rest => runSemOps (runSemOp db op) rest

/-- The rows currently flagged `is_current`. -/
def currentSemesters (db : SemDB) : List Semester :=
  db.semesters.filter (fun s => s.is_current)

/-- The single-current-semester invariant of the spec. -/
def atMostOneCurrent (db : SemDB) : Prop :=
  (currentSemesters db).length ≤ 1

/-- The structural well-formedness the service maintains: row ids are
pairwise distinct and below the fresh-id counter, and at most one row
is flagged current. -/
def SemInv (db : SemDB) : Prop :=
  (db.semesters.map (fun s => s.id)).Nodup ∧
  (∀ s ∈ db.semesters, s.id < db.nextId) ∧
  atMostOneCurrent db

/-! ### Program enrollment (`ProgramService.enroll_student_in_program`) -/

/-- Domain exceptions of `app/core/exceptions.py` used by the program
service. -/
inductive ServiceError where
  | notFound (detail : String)
  | validation (detail : String)
  | conflict (detail : String)
  deriving Repr, DecidableEq

/-- The columns of `User` the enrollment path reads (`is_student` is
the property `role == ROLE_STUDENT`). -/
structure PUser where
  id : Nat
  role : String
  deriving Repr, DecidableEq

/-- The columns of `Program` the enrollment path reads. -/
structure Program where
  id : Nat
  name : String
  is_active : Bool
  is_accepting_enrollments : Bool
  deriving Repr, DecidableEq

/-- A `UserProgram` association row. -/
structure UserProgram where
  id : Nat
  user_id : Nat
  program_id : Nat
  is_active : Bool
  status : String
  admission_number : Option String
  current_level : Option String
  current_semester : Option String
  deriving Repr, DecidableEq

/-- The state the program-enrollment path touches. -/
structure ProgDB where
  users : List PUser
  programs : List Program
  user_programs : List UserProgram
  nextEnrollmentId : Nat
  deriving Repr, DecidableEq

/-- `ProgramService.enroll_student_in_program(user_id, program_id,
admission_number)`.  Returns the enrollment row the service returns
and the resulting state; an error leaves the state unchanged (the
service raises before any commit). -/
def enroll_student_in_program (db : ProgDB) (user_id program_id : Nat)
    (admission_number : Option String) :
    Except ServiceError UserProgram × ProgDB :=
  match db.users.find? (fun u => u.id = user_id) with
  | none => (.error (.notFound ("User with ID '" ++ toString user_id ++ "' not found")), db)
  | some user =>
    if user.role ≠ ROLE_STUDENT then
      (.error (.validation "Only students can be enrolled in programs"), db)
    else
      match db.programs.find? (fun p => p.id = program_id) with
      | none =>
        (.error (.notFound ("Program with ID '" ++ toString program_id ++ "' not found")), db)
      | some program =>
        if !program.is_active then
          (.error (.validation ("Program '" ++ program.name ++ "' is not active")), db)
        else if !program.is_accepting_enrollments then
          (.error (.validation ("Program '" ++ program.name ++ "' is not accepting enrollments")), db)
        else
          match db.user_programs.find?
              (fun up => up.user_id = user_id ∧ up.program_id = program_id) with
          | some existing =>
            if existing.is_active then
              (.error (.conflict "Student is already enrolled in this program"), db)
            else
              let reactivated := { existing with is_active := true, status := "enrolled" }
              let rows := db.user_programs.map
                (fun up => if up.id = existing.id then reactivated else up)
              (.ok reactivated, { db with user_programs := rows })
          | none =>
            let enrollment : UserProgram :=
              ⟨db.nextEnrollmentId, user_id, program_id, true, "enrolled",
               admission_number, some "ND1", some "First"⟩
            (.ok enrollment,
             { db with
                 user_programs := db.user_programs ++ [enrollment],
                 nextEnrollmentId := db.nextEnrollmentId + 1 })

/-! ### Course enrollment (`CourseService.enroll_in_course`) -/

/-- The columns of `Course` the enrollment path reads. -/
structure Course where
  id : Nat
  is_available : Bool
  deriving Repr, DecidableEq

/-- A `CourseEnrollment` row (the columns `enroll_in_course` writes). -/
structure CourseEnrollment where
  id : Nat
  student_id : Nat
  course_id : Nat
  semester_id : Nat
  status : String
  is_active : Bool
  deriving Repr, DecidableEq

/-- The state the course-enrollment path touches. -/
structure CourseDB where
  courses : List Course
  semesters : List Semester
  enrollments : List CourseEnrollment
  nextId : Nat
  deriving Repr, DecidableEq

/-- `CourseService.enroll_in_course(course_id, enrollment_data,
current_user)` for student `student_id` and target semester
`semester_id`.  Returns the created row and the resulting state; every
failure raises before the insert, leaving the state unchanged. -/
def enroll_in_course (db : CourseDB) (course_id : Nat) (semester_id : Nat)
    (student_id : Nat) : Except HTTPError CourseEnrollment × CourseDB :=
  match db.courses.find? (fun c => c.id = course_id) with
  | none => (.error ⟨404, "Course not found"⟩, db)
  | some course =>
    if !course.is_available then
      (.error ⟨400, "Course is not available for enrollment"⟩, db)
    else if (db.semesters.find? (fun s => s.id = semester_id)).isNone then
      (.error ⟨400, "Semester not found"⟩, db)
    else
      match db.enrollments.find?
          (fun e => e.course_id = course_id ∧ e.student_id = student_id ∧
                    e.semester_id = semester_id ∧ e.is_active) with
      | some _ => (.error ⟨400, "Already enrolled in this course"⟩, db)
      | none =>
        let enrollment : CourseEnrollment :=
          ⟨db.nextId, student_id, course_id, semester_id, "enrolled", true⟩
        (.ok enrollment,
         { db with enrollments := db.enrollments ++ [enrollment], nextId := db.nextId + 1 })

/-! ## Theorems settling the claims -/

/-- A successful `verify_token` returns exactly the signed payload,
and its expiry claim (when present) lies strictly in the future. -/
theorem verify_token_some (tok : SignedToken) (t : Int) (payload : TokenPayload)
    (h : verify_token tok t = some payload) :
    payload = tok.payload ∧ ∀ e, tok.payload.exp = some e → t < e := by
  simp only [verify_token, jwtDecode] at h
  split at h
  · split at h
    · rename_i e he
      split at h
      · rename_i hlt
        cases h
        refine ⟨rfl, fun e2 he2 => ?_⟩
        rw [he] at he2
        cases he2
        exact hlt
      · cases h
    · rename_i he
      cases h
      refine ⟨rfl, fun e2 he2 => ?_⟩
      rw [he] at he2
      cases he2
  · cases h

/-- `verify_token` of a freshly issued access token is the issued
payload before the expiry instant and `none` from it on. -/
theorem verify_token_create_access (data : List (String × String))
    (t0 ttl t : Int) (jti : Nat) :
    verify_token (create_access_token data t0 (some ttl) jti) t =
      if t < t0 + ttl then some ⟨data, some (t0 + ttl), t0, jti, "access"⟩ else none := by
  simp [verify_token, create_access_token, jwtEncode, jwtDecode]

/-- `verify_token` of a freshly issued refresh token is the issued
payload before the expiry instant and `none` from it on. -/
theorem verify_token_create_refresh (data : List (String × String))
    (t0 ttl t : Int) (jti : Nat) :
    verify_token (create_refresh_token data t0 (some ttl) jti) t =
      if t < t0 + ttl then some ⟨data, some (t0 + ttl), t0, jti, "refresh"⟩ else none := by
  simp [verify_token, create_refresh_token, jwtEncode, jwtDecode]

/-- `verify_access_token` of a freshly issued access token is the
issued payload before the expiry instant and `none` from it on. -/
theorem verify_access_token_create (data : List (String × String))
    (t0 ttl t : Int) (jti : Nat) :
    verify_access_token (create_access_token data t0 (some ttl) jti) t =
      if t < t0 + ttl then some ⟨data, some (t0 + ttl), t0, jti, "access"⟩ else none := by
  by_cases ht : t < t0 + ttl
  · unfold verify_access_token
    rw [verify_token_create_access, if_pos ht]
    simp
  · unfold verify_access_token
    rw [verify_token_create_access, if_neg ht]

/-- `verify_refresh_token` of a freshly issued refresh token is the
issued payload before the expiry instant and `none` from it on. -/
theorem verify_refresh_token_create (data : List (String × String))
    (t0 ttl t : Int) (jti : Nat) :
    verify_refresh_token (create_refresh_token data t0 (some ttl) jti) t =
      if t < t0 + ttl then some ⟨data, some (t0 + ttl), t0, jti, "refresh"⟩ else none := by
  by_cases ht : t < t0 + ttl
  · unfold verify_refresh_token
    rw [verify_token_create_refresh, if_pos ht]
    simp
  · unfold verify_refresh_token
    rw [verify_token_create_refresh, if_neg ht]

/-- C5: token purpose isolation — for every claim set (and any issue
time, ttl, token id and verification time), a token issued with purpose
`refresh` fails `verify_access_token`, and a token issued with purpose
`access` fails `verify_refresh_token`. -/
theorem claim_C5_token_purpose_isolation (data : List (String × String))
    (now t : Int) (delta : Option Int) (jti : Nat) :
    verify_access_token (create_refresh_token data now delta jti) t = none ∧
    verify_refresh_token (create_access_token data now delta jti) t = none := by
  constructor
  · unfold verify_access_token
    cases hv : verify_token (create_refresh_token data now delta jti) t with
    | none => rfl
    | some p =>
      have hp := (verify_token_some _ _ _ hv).1
      subst hp
      simp [create_refresh_token, jwtEncode]
  · unfold verify_refresh_token
    cases hv : verify_token (create_access_token data now delta jti) t with
    | none => rfl
    | some p =>
      have hp := (verify_token_some _ _ _ hv).1
      subst hp
      simp [create_access_token, jwtEncode]

/-- C6: token round-trip — verifying a freshly issued token (either
purpose) with the matching expected purpose returns the original claim
set while the ttl has not elapsed, and returns `none` once it has. -/
theorem claim_C6_token_round_trip (data : List (String × String))
    (t0 ttl t : Int) (jti : Nat) :
    (t < t0 + ttl →
      verify_access_token (create_access_token data t0 (some ttl) jti) t =
        some ⟨data, some (t0 + ttl), t0, jti, "access"⟩ ∧
      verify_refresh_token (create_refresh_token data t0 (some ttl) jti) t =
        some ⟨data, some (t0 + ttl), t0, jti, "refresh"⟩) ∧
    (t0 + ttl ≤ t →
      verify_access_token (create_access_token data t0 (some ttl) jti) t = none ∧
      verify_refresh_token (create_refresh_token data t0 (some ttl) jti) t = none) := by
  rw [verify_access_token_create, verify_refresh_token_create]
  constructor
  · intro h
    rw [if_pos h, if_pos h]
    exact ⟨rfl, rfl⟩
  · intro h
    rw [if_neg (by omega), if_neg (by omega)]
    exact ⟨rfl, rfl⟩

/-- Witness for C6 at a concrete token: claims survive the round trip
at time 5 with ttl 100 issued at 0, and verification fails at 200. -/
theorem claim_C6_token_round_trip_witness :
    verify_access_token (create_access_token [("sub", "1")] 0 (some 100) 7) 5 =
      some ⟨[("sub", "1")], some 100, 0, 7, "access"⟩ ∧
    verify_access_token (create_access_token [("sub", "1")] 0 (some 100) 7) 200 = none := by
  have h1 := (claim_C6_token_round_trip [("sub", "1")] 0 100 5 7).1 (by decide)
  have h2 := (claim_C6_token_round_trip [("sub", "1")] 0 100 200 7).2 (by decide)
  exact ⟨by simpa using h1.1, h2.1⟩

/-- C7: password strength policy — `validate_password_strength`
accepts exactly the strings of length at least 8 containing a
lowercase letter, an uppercase letter, a digit and a symbol from the
fixed allowed set `[@$!%*?&]`; moreover "short1!" and "alllowercase1!"
are rejected and "ValidPass123!" is accepted. -/
theorem claim_C7_password_policy (p : String) :
    (validate_password_strength p = true ↔
      8 ≤ p.length ∧ (∃ c ∈ p.data, c.isLower) ∧ (∃ c ∈ p.data, c.isUpper) ∧
      (∃ c ∈ p.data, c.isDigit) ∧ ∃ c ∈ p.data, c ∈ SPECIAL_CHARS) ∧
    validate_password_strength "short1!" = false ∧
    validate_password_strength "alllowercase1!" = false ∧
    validate_password_strength "ValidPass123!" = true := by
  refine ⟨?_, by decide, by decide, by decide⟩
  unfold validate_password_strength
  by_cases h1 : p.length < 8 <;>
    by_cases h2 : p.data.any Char.isLower = true <;>
    by_cases h3 : p.data.any Char.isUpper = true <;>
    by_cases h4 : p.data.any Char.isDigit = true <;>
    by_cases h5 : p.data.any (fun c => SPECIAL_CHARS.contains c) = true <;>
    simp_all [List.any_eq_true]

/-- C8: administrative override is universal — `require_role` and
`require_roles` authorize exactly the principals whose role matches
the requirement or is `admin`/`it_admin`; an `it_admin` passes the
`lecturer` check, a `student` fails it with a 403 outcome. -/
theorem claim_C8_admin_override (required_role role : String)
    (required_roles : List String) :
    (require_role required_role role = .ok role ↔
      role = required_role ∨ role = ROLE_ADMIN ∨ role = ROLE_IT_ADMIN) ∧
    (require_roles required_roles role = .ok role ↔
      role ∈ required_roles ∨ role = ROLE_ADMIN ∨ role = ROLE_IT_ADMIN) ∧
    require_role ROLE_LECTURER ROLE_IT_ADMIN = .ok ROLE_IT_ADMIN ∧
    ∃ e, require_role ROLE_LECTURER ROLE_STUDENT = .error e ∧ e.status_code = 403 := by
  refine ⟨?_, ?_, by decide,
    ⟨403, "Access denied. Required role: " ++ ROLE_LECTURER⟩, by decide, rfl⟩
  · by_cases h : role = required_role ∨ role = ROLE_ADMIN ∨ role = ROLE_IT_ADMIN
    · have hc : ¬(role ≠ required_role ∧ ¬role ∈ [ROLE_ADMIN, ROLE_IT_ADMIN]) := by
        simp only [List.mem_cons, List.not_mem_nil, or_false]
        tauto
      unfold require_role
      rw [if_neg hc]
      exact iff_of_true rfl h
    · have hc : role ≠ required_role ∧ ¬role ∈ [ROLE_ADMIN, ROLE_IT_ADMIN] := by
        push_neg at h
        simp only [List.mem_cons, List.not_mem_nil, or_false]
        tauto
      unfold require_role
      rw [if_pos hc]
      exact iff_of_false (fun hk => Except.noConfusion hk) h
  · by_cases h : role ∈ required_roles ∨ role = ROLE_ADMIN ∨ role = ROLE_IT_ADMIN
    · have hc : ¬(¬role ∈ required_roles ∧ ¬role ∈ [ROLE_ADMIN, ROLE_IT_ADMIN]) := by
        simp only [List.mem_cons, List.not_mem_nil, or_false]
        tauto
      unfold require_roles
      rw [if_neg hc]
      exact iff_of_true rfl h
    · have hc : ¬role ∈ required_roles ∧ ¬role ∈ [ROLE_ADMIN, ROLE_IT_ADMIN] := by
        push_neg at h
        simp only [List.mem_cons, List.not_mem_nil, or_false]
        tauto
      unfold require_roles
      rw [if_pos hc]
      exact iff_of_false (fun hk => Except.noConfusion hk) h

/-- C10: `is_token_expired` reports every unverifiable token as
expired, and reports a token unexpired exactly when it verifies and
its expiry claim lies strictly in the future. -/
theorem claim_C10_is_token_expired_null_safe (tok : SignedToken) (now : Int) :
    (verify_token tok now = none → is_token_expired tok now = true) ∧
    (is_token_expired tok now = false ↔
      ∃ payload e, verify_token tok now = some payload ∧
        payload.exp = some e ∧ now < e) := by
  constructor
  · intro hnone
    simp [is_token_expired, get_token_expiration, hnone]
  · cases hv : verify_token tok now with
    | none => simp [is_token_expired, get_token_expiration, hv]
    | some payload =>
      obtain ⟨hpay, hexp⟩ := verify_token_some tok now payload hv
      subst hpay
      simp only [is_token_expired, get_token_expiration, hv]
      cases he : tok.payload.exp with
      | none => simp [he]
      | some e =>
        have hlt := hexp e he
        constructor
        · intro _
          exact ⟨tok.payload, e, rfl, he, hlt⟩
        · intro _
          have hnot : ¬ now > e := by omega
          simp [he, hnot]

/-- Witness for C10 at a token signed with the wrong key: it fails
verification and is reported expired. -/
theorem claim_C10_is_token_expired_null_safe_witness :
    verify_token ⟨⟨[], some 100, 0, 0, "access"⟩, "wrong-key"⟩ 0 = none ∧
    is_token_expired ⟨⟨[], some 100, 0, 0, "access"⟩, "wrong-key"⟩ 0 = true :=
  ⟨by decide,
   (claim_C10_is_token_expired_null_safe ⟨⟨[], some 100, 0, 0, "access"⟩, "wrong-key"⟩ 0).1
     (by decide)⟩

/-- C3 counterexample: the three login-failure conditions do not all
carry an identical message — with the password hasher modelled as
string equality, an unknown identifier yields detail
"Invalid credentials" while a known-but-inactive account yields the
distinct detail "Account is inactive". -/
theorem claim_C3_login_messages_counterexample :
    authenticate_user (fun p h => p == h) [] "U001" "pw" =
      .error ⟨401, "Invalid credentials"⟩ ∧
    authenticate_user (fun p h => p == h)
        [⟨1, "a@x.edu", "U001", "pw", false, "student", none⟩] "U001" "pw" =
      .error ⟨401, "Account is inactive"⟩ ∧
    ("Invalid credentials" : String) ≠ "Account is inactive" :=
  ⟨by decide, by decide, by decide⟩

/-- C3 amended: every login failure raises a 401 authentication error;
the principal-not-found and password-verification-failure conditions
carry the identical generic message "Invalid credentials", but the
principal-inactive condition carries the distinct message
"Account is inactive". -/
theorem claim_C3_login_failure_messages (vp : String → String → Bool)
    (users : List AuthUser) (identifier password : String) :
    (get_user_by_identifier users identifier = none →
      authenticate_user vp users identifier password =
        .error ⟨401, "Invalid credentials"⟩) ∧
    (∀ u, get_user_by_identifier users identifier = some u →
      (u.is_active = false →
        authenticate_user vp users identifier password =
          .error ⟨401, "Account is inactive"⟩) ∧
      (u.is_active = true → vp password u.password_hash = false →
        authenticate_user vp users identifier password =
          .error ⟨401, "Invalid credentials"⟩)) ∧
    (∀ e, authenticate_user vp users identifier password = .error e →
      e.status_code = 401) := by
  refine ⟨?_, ?_, ?_⟩
  · intro hnone
    unfold authenticate_user
    rw [hnone]
  · intro u hu
    constructor
    · intro hinact
      unfold authenticate_user
      rw [hu]
      simp [hinact]
    · intro hact hbad
      unfold authenticate_user
      rw [hu]
      simp [hact, hbad]
  · intro e he
    unfold authenticate_user at he
    cases hu : get_user_by_identifier users identifier with
    | none =>
      rw [hu] at he
      cases he
      rfl
    | some u =>
      rw [hu] at he
      by_cases hact : u.is_active = true
      · by_cases hvp : vp password u.password_hash = true
        · simp [hact, hvp] at he
        · simp [hact, hvp] at he
          rw [← he]
      · simp only [Bool.not_eq_true] at hact
        simp [hact] at he
        rw [← he]

/-- Witness for C3 amended at concrete inputs: an unknown identifier
and a wrong password both yield the generic message, a known inactive
account yields the distinct one. -/
theorem claim_C3_login_failure_messages_witness :
    authenticate_user (fun p h => p == h) [] "U001" "pw" =
      .error ⟨401, "Invalid credentials"⟩ ∧
    authenticate_user (fun p h => p == h)
        [⟨1, "a@x.edu", "U001", "secret", false, "student", none⟩] "U001" "pw" =
      .error ⟨401, "Account is inactive"⟩ ∧
    authenticate_user (fun p h => p == h)
        [⟨1, "a@x.edu", "U001", "secret", true, "student", none⟩] "U001" "pw" =
      .error ⟨401, "Invalid credentials"⟩ := by
  refine ⟨?_, ?_, ?_⟩
  · exact (claim_C3_login_failure_messages (fun p h => p == h) [] "U001" "pw").1 (by decide)
  · exact ((claim_C3_login_failure_messages (fun p h => p == h)
      [⟨1, "a@x.edu", "U001", "secret", false, "student", none⟩] "U001" "pw").2.1
      ⟨1, "a@x.edu", "U001", "secret", false, "student", none⟩ (by decide)).1 (by decide)
  · exact ((claim_C3_login_failure_messages (fun p h => p == h)
      [⟨1, "a@x.edu", "U001", "secret", true, "student", none⟩] "U001" "pw").2.1
      ⟨1, "a@x.edu", "U001", "secret", true, "student", none⟩ (by decide)).2
      (by decide) (by decide)

/-- C2: program-enrollment reactivation idempotence — with the student
and an active, accepting program in place, if the stored (student,
program) row is inactive, enrolling reactivates that same row (same
id, `is_active := true`, `status := "enrolled"`) without inserting;
if it is active, enrolling fails with the `ConflictError`; in both
cases the row count and the fresh-id counter are unchanged. -/
theorem claim_C2_program_reactivation (db : ProgDB) (uid pid : Nat)
    (adm : Option String) (u : PUser) (p : Program) (r : UserProgram)
    (hu : db.users.find? (fun x => x.id = uid) = some u)
    (hrole : u.role = ROLE_STUDENT)
    (hp : db.programs.find? (fun x => x.id = pid) = some p)
    (hact : p.is_active = true)
    (hacc : p.is_accepting_enrollments = true)
    (hr : db.user_programs.find?
      (fun up => up.user_id = uid ∧ up.program_id = pid) = some r) :
    (r.is_active = false →
      enroll_student_in_program db uid pid adm =
        (.ok { r with is_active := true, status := "enrolled" },
         { db with user_programs := db.user_programs.map (fun up =>
             if up.id = r.id then { r with is_active := true, status := "enrolled" }
             else up) })) ∧
    (r.is_active = true →
      enroll_student_in_program db uid pid adm =
        (.error (.conflict "Student is already enrolled in this program"), db)) ∧
    (enroll_student_in_program db uid pid adm).2.user_programs.length =
      db.user_programs.length ∧
    (enroll_student_in_program db uid pid adm).2.nextEnrollmentId =
      db.nextEnrollmentId := by
  cases hra : r.is_active with
  | false =>
    have heq : enroll_student_in_program db uid pid adm =
        (.ok { r with is_active := true, status := "enrolled" },
         { db with user_programs := db.user_programs.map (fun up =>
             if up.id = r.id then { r with is_active := true, status := "enrolled" }
             else up) }) := by
      unfold enroll_student_in_program
      rw [hu, hp, hr]
      simp [hrole, hact, hacc, hra]
    refine ⟨fun _ => heq, ?_, ?_, ?_⟩
    · intro hc
      simp at hc
    · rw [heq]
      simp
    · rw [heq]
  | true =>
    have heq : enroll_student_in_program db uid pid adm =
        (.error (.conflict "Student is already enrolled in this program"), db) := by
      unfold enroll_student_in_program
      rw [hu, hp, hr]
      simp [hrole, hact, hacc, hra]
    refine ⟨?_, fun _ => heq, ?_, ?_⟩
    · intro hc
      simp at hc
    · rw [heq]
    · rw [heq]

/-- Witness for C2 at a concrete database: reactivating the inactive
row with id 5 reuses it, and enrolling over an active row conflicts. -/
theorem claim_C2_program_reactivation_witness :
    enroll_student_in_program
        ⟨[⟨1, "student"⟩], [⟨7, "CS", true, true⟩],
         [⟨5, 1, 7, false, "dropped", none, some "ND1", some "First"⟩], 6⟩ 1 7 none =
      (.ok ⟨5, 1, 7, true, "enrolled", none, some "ND1", some "First"⟩,
       ⟨[⟨1, "student"⟩], [⟨7, "CS", true, true⟩],
        [⟨5, 1, 7, true, "enrolled", none, some "ND1", some "First"⟩], 6⟩) ∧
    enroll_student_in_program
        ⟨[⟨1, "student"⟩], [⟨7, "CS", true, true⟩],
         [⟨5, 1, 7, true, "enrolled", none, some "ND1", some "First"⟩], 6⟩ 1 7 none =
      (.error (.conflict "Student is already enrolled in this program"),
       ⟨[⟨1, "student"⟩], [⟨7, "CS", true, true⟩],
        [⟨5, 1, 7, true, "enrolled", none, some "ND1", some "First"⟩], 6⟩) := by
  constructor
  · have h := (claim_C2_program_reactivation
      ⟨[⟨1, "student"⟩], [⟨7, "CS", true, true⟩],
       [⟨5, 1, 7, false, "dropped", none, some "ND1", some "First"⟩], 6⟩ 1 7 none
      ⟨1, "student"⟩ ⟨7, "CS", true, true⟩
      ⟨5, 1, 7, false, "dropped", none, some "ND1", some "First"⟩
      (by decide) rfl (by decide) rfl rfl (by decide)).1 rfl
    exact h
  · have h := (claim_C2_program_reactivation
      ⟨[⟨1, "student"⟩], [⟨7, "CS", true, true⟩],
       [⟨5, 1, 7, true, "enrolled", none, some "ND1", some "First"⟩], 6⟩ 1 7 none
      ⟨1, "student"⟩ ⟨7, "CS", true, true⟩
      ⟨5, 1, 7, true, "enrolled", none, some "ND1", some "First"⟩
      (by decide) rfl (by decide) rfl rfl (by decide)).2.1 rfl
    exact h

/-- C9: course-enrollment failure atomicity and no-reactivation — a
missing or unavailable course, a missing semester, or an existing
active (student, course, semester) row each fail with the code's
error and leave the state unchanged; otherwise a brand-new row is
appended (existing rows, active or inactive, are never modified). -/
theorem claim_C9_course_enrollment_atomicity (db : CourseDB) (cid sid uid : Nat) :
    (db.courses.find? (fun x => x.id = cid) = none →
      enroll_in_course db cid sid uid = (.error ⟨404, "Course not found"⟩, db)) ∧
    (∀ c, db.courses.find? (fun x => x.id = cid) = some c →
      c.is_available = false →
      enroll_in_course db cid sid uid =
        (.error ⟨400, "Course is not available for enrollment"⟩, db)) ∧
    (∀ c, db.courses.find? (fun x => x.id = cid) = some c →
      c.is_available = true →
      db.semesters.find? (fun x => x.id = sid) = none →
      enroll_in_course db cid sid uid = (.error ⟨400, "Semester not found"⟩, db)) ∧
    (∀ c s e, db.courses.find? (fun x => x.id = cid) = some c →
      c.is_available = true →
      db.semesters.find? (fun x => x.id = sid) = some s →
      db.enrollments.find? (fun x => x.course_id = cid ∧ x.student_id = uid ∧
        x.semester_id = sid ∧ x.is_active) = some e →
      enroll_in_course db cid sid uid =
        (.error ⟨400, "Already enrolled in this course"⟩, db)) ∧
    (∀ c s, db.courses.find? (fun x => x.id = cid) = some c →
      c.is_available = true →
      db.semesters.find? (fun x => x.id = sid) = some s →
      db.enrollments.find? (fun x => x.course_id = cid ∧ x.student_id = uid ∧
        x.semester_id = sid ∧ x.is_active) = none →
      enroll_in_course db cid sid uid =
        (.ok ⟨db.nextId, uid, cid, sid, "enrolled", true⟩,
         { db with
             enrollments := db.enrollments ++ [⟨db.nextId, uid, cid, sid, "enrolled", true⟩],
             nextId := db.nextId + 1 })) := by
  refine ⟨?_, ?_, ?_, ?_, ?_⟩
  · intro hc
    unfold enroll_in_course
    rw [hc]
  · intro c hc hun
    unfold enroll_in_course
    rw [hc]
    simp [hun]
  · intro c hc hav hs
    unfold enroll_in_course
    rw [hc, hs]
    simp [hav]
  · intro c s e hc hav hs he
    unfold enroll_in_course
    rw [hc, hs, he]
    simp [hav]
  · intro c s hc hav hs he
    unfold enroll_in_course
    rw [hc, hs, he]
    simp [hav]

/-- Witness for C9 at a concrete database: an inactive row for the
same triple does not block enrollment (a fresh row is appended and the
old row is untouched), and a missing semester fails unchanged. -/
theorem claim_C9_course_enrollment_atomicity_witness :
    enroll_in_course ⟨[⟨3, true⟩], [⟨9, "A", false, true⟩], [⟨4, 1, 3, 9, "dropped", false⟩], 5⟩
        3 9 1 =
      (.ok ⟨5, 1, 3, 9, "enrolled", true⟩,
       ⟨[⟨3, true⟩], [⟨9, "A", false, true⟩],
        [⟨4, 1, 3, 9, "dropped", false⟩, ⟨5, 1, 3, 9, "enrolled", true⟩], 6⟩) ∧
    enroll_in_course ⟨[⟨3, true⟩], [⟨9, "A", false, true⟩], [⟨4, 1, 3, 9, "dropped", false⟩], 5⟩
        3 99 1 =
      (.error ⟨400, "Semester not found"⟩,
       ⟨[⟨3, true⟩], [⟨9, "A", false, true⟩], [⟨4, 1, 3, 9, "dropped", false⟩], 5⟩) := by
  constructor
  · have h := (claim_C9_course_enrollment_atomicity
      ⟨[⟨3, true⟩], [⟨9, "A", false, true⟩], [⟨4, 1, 3, 9, "dropped", false⟩], 5⟩
      3 9 1).2.2.2.2 ⟨3, true⟩ ⟨9, "A", false, true⟩ (by decide) rfl (by decide) (by decide)
    exact h
  · have h := (claim_C9_course_enrollment_atomicity
      ⟨[⟨3, true⟩], [⟨9, "A", false, true⟩], [⟨4, 1, 3, 9, "dropped", false⟩], 5⟩
      3 99 1).2.2.1 ⟨3, true⟩ (by decide) rfl (by decide)
    exact h

/-- C4: rate-gate sliding-window boundary — with `max_requests = 3`
and `window_seconds = 60`, four admission calls from one client within
the window yield allow, allow, allow, deny; a fifth call made once the
window has elapsed since the allowed calls is allowed again (stale
timestamps are dropped before the count is compared). -/
theorem claim_C4_rate_gate_boundary (client_ip : String) (t1 t2 t3 t4 t5 : Int)
    (h12 : t1 ≤ t2) (h23 : t2 ≤ t3) (h34 : t3 ≤ t4) (hwin : t4 < t1 + 60)
    (h45 : t4 ≤ t5) (helapsed : t3 + 60 ≤ t5) :
    runRateCalls 3 60 ⟨[]⟩ client_ip [t1, t2, t3, t4, t5] =
      [.allowed, .allowed, .allowed, .rateLimited, .allowed] := by
  have e1 : rate_limiter 3 60 ⟨[]⟩ client_ip t1 =
      (.allowed, ⟨[(client_ip, [t1])]⟩) := by
    simp [rate_limiter, RateState.get, RateState.set]
  have e2 : rate_limiter 3 60 ⟨[(client_ip, [t1])]⟩ client_ip t2 =
      (.allowed, ⟨[(client_ip, [t1, t2])]⟩) := by
    have hk1 : t2 - 60 < t1 := by omega
    simp [rate_limiter, RateState.get, RateState.set, List.lookup, hk1]
  have e3 : rate_limiter 3 60 ⟨[(client_ip, [t1, t2])]⟩ client_ip t3 =
      (.allowed, ⟨[(client_ip, [t1, t2, t3])]⟩) := by
    have hk1 : t3 - 60 < t1 := by omega
    have hk2 : t3 - 60 < t2 := by omega
    simp [rate_limiter, RateState.get, RateState.set, List.lookup, hk1, hk2]
  have e4 : rate_limiter 3 60 ⟨[(client_ip, [t1, t2, t3])]⟩ client_ip t4 =
      (.rateLimited, ⟨[(client_ip, [t1, t2, t3])]⟩) := by
    have hk1 : t4 - 60 < t1 := by omega
    have hk2 : t4 - 60 < t2 := by omega
    have hk3 : t4 - 60 < t3 := by omega
    simp [rate_limiter, RateState.get, RateState.set, List.lookup, hk1, hk2, hk3]
  have e5 : rate_limiter 3 60 ⟨[(client_ip, [t1, t2, t3])]⟩ client_ip t5 =
      (.allowed, ⟨[(client_ip, [t5])]⟩) := by
    have hk1 : ¬ t5 - 60 < t1 := by omega
    have hk2 : ¬ t5 - 60 < t2 := by omega
    have hk3 : ¬ t5 - 60 < t3 := by omega
    simp [rate_limiter, RateState.get, RateState.set, List.lookup, hk1, hk2, hk3]
  simp only [runRateCalls, e1, e2, e3, e4, e5]

/-- Witness for C4 at concrete timestamps 0, 1, 2, 3, 62. -/
theorem claim_C4_rate_gate_boundary_witness :
    runRateCalls 3 60 ⟨[]⟩ "10.0.0.1" [0, 1, 2, 3, 62] =
      [.allowed, .allowed, .allowed, .rateLimited, .allowed] :=
  claim_C4_rate_gate_boundary "10.0.0.1" 0 1 2 3 62 (by decide) (by decide)
    (by decide) (by decide) (by decide) (by decide)

/-! Helper lemmas for the single-current-semester invariant (C1). -/

/-- Clearing every flag leaves no current row. -/
theorem curLen_clear (l : List Semester) :
    ((l.map (fun s => { s with is_current := false })).filter
      (fun s => s.is_current)).length = 0 := by
  induction l with
  | nil => rfl
  | cons a t ih => simpa using ih

/-- Clearing flags keeps the list of row ids. -/
theorem ids_map_clear (l : List Semester) :
    (l.map (fun s => { s with is_current := false })).map (fun s => s.id) =
      l.map (fun s => s.id) := by
  rw [List.map_map]
  rfl

/-- `applySemesterUpdate` never changes the row id. -/
theorem applySemesterUpdate_id (u : SemesterUpdate) (s : Semester) :
    (applySemesterUpdate u s).id = s.id := by
  obtain ⟨un, uc, ua⟩ := u
  cases un <;> cases uc <;> cases ua <;> rfl

/-- When the update provides `is_current = b`, the updated row carries
flag `b`. -/
theorem applySemesterUpdate_is_current_some (u : SemesterUpdate) (s : Semester)
    (b : Bool) (h : u.is_current = some b) :
    (applySemesterUpdate u s).is_current = b := by
  obtain ⟨un, uc, ua⟩ := u
  have h2 : uc = some b := h
  subst h2
  cases un <;> cases ua <;> rfl

/-- When the update does not provide `is_current`, the flag is kept. -/
theorem applySemesterUpdate_is_current_none (u : SemesterUpdate) (s : Semester)
    (h : u.is_current = none) :
    (applySemesterUpdate u s).is_current = s.is_current := by
  obtain ⟨un, uc, ua⟩ := u
  have h2 : uc = none := h
  subst h2
  cases un <;> cases ua <;> rfl

/-- Per-row id-targeted updates keep the list of row ids. -/
theorem ids_map_upd (l : List Semester) (sid : Nat) (u : SemesterUpdate) :
    (l.map (fun s => if s.id = sid then applySemesterUpdate u s else s)).map
      (fun s => s.id) = l.map (fun s => s.id) := by
  induction l with
  | nil => rfl
  | cons a t ih =>
    simp only [List.map_cons, ih]
    congr 1
    by_cases ha : a.id = sid
    · rw [if_pos ha, applySemesterUpdate_id]
    · rw [if_neg ha]

/-- If the target id is nowhere in the list, the per-row update is the
identity. -/
theorem upd_not_mem (l : List Semester) (sid : Nat) (u : SemesterUpdate)
    (h : ∀ s ∈ l, s.id ≠ sid) :
    l.map (fun s => if s.id = sid then applySemesterUpdate u s else s) = l := by
  induction l with
  | nil => rfl
  | cons a t ih =>
    have ha := h a (List.mem_cons_self a t)
    simp only [List.map_cons, if_neg ha]
    rw [ih (fun s hs => h s (List.mem_cons_of_mem a hs))]

/-- A pointwise map that never turns the flag on cannot increase the
number of current rows. -/
theorem curLen_map_le (l : List Semester) (f : Semester → Semester)
    (hf : ∀ s, (f s).is_current = true → s.is_current = true) :
    ((l.map f).filter (fun s => s.is_current)).length ≤
      (l.filter (fun s => s.is_current)).length := by
  induction l with
  | nil => simp
  | cons a t ih =>
    cases hfa : (f a).is_current with
    | true =>
      have haa := hf a hfa
      simp [List.filter_cons, hfa, haa]
      omega
    | false =>
      cases haa : a.is_current with
      | true =>
        simp [List.filter_cons, hfa, haa]
        omega
      | false =>
        simp [List.filter_cons, hfa, haa]
        exact ih

/-- After clear-all followed by the targeted update, at most one row is
current when ids are distinct, and exactly one when the target id is
present. -/
theorem curLen_clear_upd (l : List Semester) (sid : Nat) (u : SemesterUpdate)
    (hcu : u.is_current = some true)
    (hnd : (l.map (fun s => s.id)).Nodup) :
    (((l.map (fun s => { s with is_current := false })).map
        (fun s => if s.id = sid then applySemesterUpdate u s else s)).filter
      (fun s => s.is_current)).length ≤ 1 ∧
    (sid ∈ l.map (fun s => s.id) →
      (((l.map (fun s => { s with is_current := false })).map
          (fun s => if s.id = sid then applySemesterUpdate u s else s)).filter
        (fun s => s.is_current)).length = 1) := by
  induction l with
  | nil => simp
  | cons a t ih =>
    simp only [List.map_cons, List.nodup_cons] at hnd
    obtain ⟨hna, hndt⟩ := hnd
    by_cases ha : a.id = sid
    · have htail : (t.map (fun s => { s with is_current := false })).map
          (fun s => if s.id = sid then applySemesterUpdate u s else s) =
          t.map (fun s => { s with is_current := false }) := by
        apply upd_not_mem
        intro s hs
        obtain ⟨s0, hs0, rfl⟩ := List.mem_map.mp hs
        intro hid
        have hid2 : s0.id = sid := hid
        apply hna
        rw [ha, ← hid2]
        exact List.mem_map_of_mem _ hs0
      have hhead : (applySemesterUpdate u
          { a with is_current := false }).is_current = true :=
        applySemesterUpdate_is_current_some u _ true hcu
      simp only [List.map_cons, htail, if_pos ha, List.filter_cons, hhead, if_true]
      constructor
      · simp [curLen_clear t]
      · intro _
        simp [curLen_clear t]
    · have hne : sid ∈ t.map (fun s => s.id) → True := fun _ => trivial
      simp only [List.map_cons, if_neg ha, List.filter_cons]
      have hflag : ({ a with is_current := false } : Semester).is_current = true ↔ False := by
        simp
      simp only [List.mem_cons] at *
      constructor
      · simpa using (ih hndt).1
      · intro hmem
        rcases hmem with hmem | hmem
        · exact absurd hmem.symm ha
        · simpa using (ih hndt).2 hmem

/-- Every updated row that is current is the update's target. -/
theorem clear_upd_flag_id (l : List Semester) (sid : Nat) (u : SemesterUpdate) :
    ∀ s ∈ (l.map (fun s => { s with is_current := false })).map
      (fun s => if s.id = sid then applySemesterUpdate u s else s),
      s.is_current = true → s.id = sid := by
  intro s hs hflag
  obtain ⟨s1, hs1, rfl⟩ := List.mem_map.mp hs
  by_cases h1 : s1.id = sid
  · rw [if_pos h1, applySemesterUpdate_id]
    exact h1
  · rw [if_neg h1] at hflag
    obtain ⟨s0, _, rfl⟩ := List.mem_map.mp hs1
    simp at hflag

/-- A present row id makes the lookup by id succeed. -/
theorem find_id_isSome (l : List Semester) (sid : Nat)
    (h : sid ∈ l.map (fun s => s.id)) :
    (l.find? (fun s => s.id = sid)).isSome = true := by
  induction l with
  | nil => simp at h
  | cons a t ih =>
    by_cases ha : a.id = sid
    · rw [List.find?_cons_of_pos]
      · rfl
      · simpa using ha
    · simp only [List.map_cons, List.mem_cons] at h
      rcases h with h | h
      · exact absurd h.symm ha
      · rw [List.find?_cons_of_neg]
        · exact ih h
        · simpa using ha

/-- `create_semester` preserves the structural invariant. -/
theorem create_semester_inv (db db' : SemDB) (d : SemesterCreate)
    (hinv : SemInv db) (h : create_semester db d = .ok db') : SemInv db' := by
  obtain ⟨hnd, hbound, hcount⟩ := hinv
  unfold create_semester at h
  split at h
  · cases h
  · cases h
    refine ⟨?_, ?_, ?_⟩
    · rw [List.map_append]
      have hids : (if d.is_current = true then
          db.semesters.map (fun s => { s with is_current := false })
        else db.semesters).map (fun s => s.id) =
          db.semesters.map (fun s => s.id) := by
        split
        · exact ids_map_clear db.semesters
        · rfl
      rw [hids]
      rw [List.nodup_append]
      refine ⟨hnd, List.nodup_singleton _, ?_⟩
      intro x hx
      obtain ⟨s, hs, rfl⟩ := List.mem_map.mp hx
      have := hbound s hs
      intro hmem
      simp at hmem
      omega
    · intro s hs
      rw [List.mem_append] at hs
      rcases hs with hs | hs
      · split at hs
        · obtain ⟨s0, hs0, rfl⟩ := List.mem_map.mp hs
          have := hbound s0 hs0
          show s0.id < db.nextId + 1
          omega
        · have := hbound s hs
          show s.id < db.nextId + 1
          omega
      · simp only [List.mem_singleton] at hs
        subst hs
        simp
    · unfold atMostOneCurrent currentSemesters at hcount ⊢
      simp only [List.filter_append, List.length_append]
      cases hc : d.is_current with
      | true =>
        rw [if_pos rfl]
        have h0 := curLen_clear db.semesters
        simp [h0]
      | false =>
        rw [if_neg (by simp)]
        simpa using hcount

/-- `update_semester` preserves the structural invariant. -/
theorem update_semester_inv (db db' : SemDB) (sid : Nat) (u : SemesterUpdate)
    (hinv : SemInv db) (h : update_semester db sid u = .ok db') : SemInv db' := by
  obtain ⟨hnd, hbound, hcount⟩ := hinv
  unfold update_semester at h
  split at h
  · cases h
  · cases h
    have hids : ((if u.is_current = some true then
        db.semesters.map (fun s => { s with is_current := false })
      else db.semesters).map
        (fun s => if s.id = sid then applySemesterUpdate u s else s)).map
        (fun s => s.id) = db.semesters.map (fun s => s.id) := by
      rw [ids_map_upd]
      split
      · exact ids_map_clear db.semesters
      · rfl
    refine ⟨?_, ?_, ?_⟩
    · rw [hids]
      exact hnd
    · intro s hs
      have hsid : s.id ∈ db.semesters.map (fun x => x.id) := by
        rw [← hids]
        exact List.mem_map_of_mem _ hs
      obtain ⟨s0, hs0, heq⟩ := List.mem_map.mp hsid
      rw [← heq]
      exact hbound s0 hs0
    · unfold atMostOneCurrent currentSemesters at hcount ⊢
      rcases hcu : u.is_current with _ | b
      · rw [if_neg (by intro hk; cases hk)]
        refine le_trans (curLen_map_le _ _ ?_) hcount
        intro s hflag
        by_cases h1 : s.id = sid
        · rw [if_pos h1, applySemesterUpdate_is_current_none u s hcu] at hflag
          exact hflag
        · rw [if_neg h1] at hflag
          exact hflag
      · cases b with
        | false =>
          rw [if_neg (by intro hk; simp at hk)]
          refine le_trans (curLen_map_le _ _ ?_) hcount
          intro s hflag
          by_cases h1 : s.id = sid
          · rw [if_pos h1, applySemesterUpdate_is_current_some u s false hcu] at hflag
            cases hflag
          · rw [if_neg h1] at hflag
            exact hflag
        | true =>
          rw [if_pos rfl]
          exact (curLen_clear_upd db.semesters sid u hcu hnd).1

/-- One service call preserves the structural invariant (a raised
exception leaves the state unchanged). -/
theorem runSemOp_inv (db : SemDB) (op : SemOp) (h : SemInv db) :
    SemInv (runSemOp db op) := by
  cases op with
  | create d =>
    simp only [runSemOp]
    cases hc : create_semester db d with
    | ok db' => exact create_semester_inv db db' d h hc
    | error e => exact h
  | update sid u =>
    simp only [runSemOp]
    cases hc : update_semester db sid u with
    | ok db' => exact update_semester_inv db db' sid u h hc
    | error e => exact h

/-- Any sequence of service calls preserves the structural invariant. -/
theorem runSemOps_inv (ops : List SemOp) :
    ∀ db : SemDB, SemInv db → SemInv (runSemOps db ops) := by
  induction ops with
  | nil => intro db h; exact h
  | cons op rest ih =>
    intro db h
    exact ih (runSemOp db op) (runSemOp_inv db op h)

/-- C1: single-current-semester invariant — every sequence of
`create_semester`/`update_semester` calls from the empty database
leaves at most one semester flagged current; and in any well-formed
state, marking a present semester current succeeds and leaves exactly
one current row, namely the target. -/
theorem claim_C1_single_current_semester :
    (∀ ops : List SemOp, atMostOneCurrent (runSemOps ⟨[], 0⟩ ops)) ∧
    (∀ (db : SemDB) (sid : Nat) (u : SemesterUpdate),
      SemInv db → u.is_current = some true →
      sid ∈ db.semesters.map (fun s => s.id) →
      ∃ db', update_semester db sid u = .ok db' ∧
        (currentSemesters db').length = 1 ∧
        ∀ s ∈ db'.semesters, s.is_current = true → s.id = sid) := by
  constructor
  · intro ops
    have hinit : SemInv ⟨[], 0⟩ := by
      refine ⟨List.nodup_nil, ?_, ?_⟩
      · intro s hs
        simp at hs
      · unfold atMostOneCurrent currentSemesters
        simp
    exact (runSemOps_inv ops ⟨[], 0⟩ hinit).2.2
  · intro db sid u hinv hcu hmem
    have hfind := find_id_isSome db.semesters sid hmem
    obtain ⟨x, hx⟩ := Option.isSome_iff_exists.mp hfind
    refine ⟨⟨(db.semesters.map (fun s => { s with is_current := false })).map
        (fun s => if s.id = sid then applySemesterUpdate u s else s), db.nextId⟩,
        ?_, ?_, ?_⟩
    · unfold update_semester
      rw [hx]
      rw [if_neg (by intro hk; cases hk)]
      rw [if_pos (by rw [hcu])]
    · unfold currentSemesters
      exact (curLen_clear_upd db.semesters sid u hcu hinv.1).2 hmem
    · exact clear_upd_flag_id db.semesters sid u

/-- Witness for C1: from two created semesters A (current) and B, the
update marking B current succeeds and leaves exactly one current row,
B itself. -/
theorem claim_C1_single_current_semester_witness :
    atMostOneCurrent (runSemOps ⟨[], 0⟩
      [.create ⟨"A", true⟩, .create ⟨"B", false⟩]) ∧
    ∃ db', update_semester (runSemOps ⟨[], 0⟩
        [.create ⟨"A", true⟩, .create ⟨"B", false⟩]) 1 ⟨none, some true, none⟩ =
        .ok db' ∧
      (currentSemesters db').length = 1 ∧
      ∀ s ∈ db'.semesters, s.is_current = true → s.id = 1 := by
  constructor
  · exact claim_C1_single_current_semester.1 [.create ⟨"A", true⟩, .create ⟨"B", false⟩]
  · refine claim_C1_single_current_semester.2
      (runSemOps ⟨[], 0⟩ [.create ⟨"A", true⟩, .create ⟨"B", false⟩])
      1 ⟨none, some true, none⟩ ⟨?_, ?_, ?_⟩ rfl ?_
    · decide
    · decide
    · unfold atMostOneCurrent currentSemesters
      decide
    · decide

end Fedpoffa
